import Mathlib

/-!
Shallow embedding of `src/cognito_assume_role/providers.py` (QuiNovas/cognito-assume-role).

Python values that flow through the provider are modelled by `PyVal`
(strings, `None`, `datetime` objects and parsed-JSON values); Python dicts
keyed by strings are modelled by association lists with Python's
update-in-place-or-append semantics; fallible Python code returns `Except PyErr`.
-/

namespace CognitoAssumeRole

/-- Python `datetime.datetime`: naive when `tzMin = none`, otherwise aware with a
UTC offset of `tzMin` minutes. -/
structure PyDatetime where
  year : Nat
  month : Nat
  day : Nat
  hour : Nat
  minute : Nat
  second : Nat
  microsecond : Nat
  tzMin : Option Int
deriving Repr, DecidableEq

/-- Days since 1970-01-01 of a civil date (Gregorian), for date arithmetic. -/
def civilToDays (y m d : Nat) : Int :=
  let y' : Int := if m ≤ 2 then (y : Int) - 1 else (y : Int)
  let era : Int := y' / 400
  let yoe : Int := y' - era * 400
  let mp : Int := ((m : Int) + 9) % 12
  let doy : Int := (153 * mp + 2) / 5 + (d : Int) - 1
  let doe : Int := yoe * 365 + yoe / 4 - yoe / 100 + doy
  era * 146097 + doe - 719468

/-- Civil date from days since 1970-01-01 (inverse of `civilToDays`). -/
def daysToCivil (z0 : Int) : Nat × Nat × Nat :=
  let z := z0 + 719468
  let era : Int := (if z ≥ 0 then z else z - 146096) / 146097
  let doe : Int := z - era * 146097
  let yoe : Int := (doe - doe / 1460 + doe / 36524 - doe / 146096) / 365
  let y : Int := yoe + era * 400
  let doy : Int := doe - (365 * yoe + yoe / 4 - yoe / 100)
  let mp : Int := (5 * doy + 2) / 153
  let d : Int := doy - (153 * mp + 2) / 5 + 1
  let m : Int := if mp < 10 then mp + 3 else mp - 9
  ((if m ≤ 2 then y + 1 else y).toNat, m.toNat, d.toNat)

/-- Seconds-of-day of a `PyDatetime`. -/
def PyDatetime.secOfDay (t : PyDatetime) : Nat :=
  t.hour * 3600 + t.minute * 60 + t.second

/-- Python `datetime + timedelta(seconds=delta)` (tz and microsecond preserved, as in
Python when the delta is a whole number of seconds). -/
def dtShiftSeconds (t : PyDatetime) (delta : Int) : PyDatetime :=
  let total : Int := civilToDays t.year t.month t.day * 86400 + (t.secOfDay : Int) + delta
  let days : Int := Int.fdiv total 86400
  let sod : Nat := (total - days * 86400).toNat
  let c := daysToCivil days
  { year := c.1, month := c.2.1, day := c.2.2,
    hour := sod / 3600, minute := (sod % 3600) / 60, second := sod % 60,
    microsecond := t.microsecond, tzMin := t.tzMin }

/-- Total microseconds since epoch in UTC of an aware datetime (offset `off` minutes). -/
def dtUtcUs (t : PyDatetime) (off : Int) : Int :=
  ((civilToDays t.year t.month t.day * 86400 + (t.secOfDay : Int)) * 1000000
      + (t.microsecond : Int)) - off * 60000000

/-- Total microseconds since epoch of a datetime read without offset adjustment
(used for Python's naive-datetime comparison, which is lexicographic on the
field tuple and hence agrees with this linearisation). -/
def dtNaiveUs (t : PyDatetime) : Int :=
  (civilToDays t.year t.month t.day * 86400 + (t.secOfDay : Int)) * 1000000
    + (t.microsecond : Int)

/-- Python `<` on two naive datetimes. -/
def dtLtNaive (a b : PyDatetime) : Bool :=
  dtNaiveUs a < dtNaiveUs b

/-- Zero-pad a natural to width `w`. -/
def padNum (w n : Nat) : String :=
  let s := toString n
  if s.length < w then String.mk (List.replicate (w - s.length) '0') ++ s else s

/-- Python `str(datetime)`: `YYYY-MM-DD HH:MM:SS[.ffffff][+HH:MM]`.  The
microsecond part is omitted when zero; the offset suffix appears only for
aware datetimes.  This is the string stored by `TokenCache.cache_tokens`
(providers.py:80). -/
def dtToString (t : PyDatetime) : String :=
  padNum 4 t.year ++ "-" ++ padNum 2 t.month ++ "-" ++ padNum 2 t.day ++ " "
    ++ padNum 2 t.hour ++ ":" ++ padNum 2 t.minute ++ ":" ++ padNum 2 t.second
    ++ (if t.microsecond = 0 then "" else "." ++ padNum 6 t.microsecond)
    ++ (match t.tzMin with
        | none => ""
        | some off =>
            (if 0 ≤ off then "+" else "-")
              ++ padNum 2 (off.natAbs / 60) ++ ":" ++ padNum 2 (off.natAbs % 60))

/-- A JSON document as produced by Python's `json` module restricted to the
subset this library ever serializes or inspects: objects with string keys,
strings and `null` (providers.py caches only the token dict, whose values are
strings or `None`). -/
inductive JsonVal where
  | str (s : String)
  | null
  | obj (fields : List (String × JsonVal))
deriving Repr

/-- A Python value as it appears in the provider's dicts: a string, `None`,
a `datetime`, or a value obtained from `json.loads`. -/
inductive PyVal where
  | vStr (s : String)
  | vNone
  | vDatetime (d : PyDatetime)
  | vJson (j : JsonVal)
deriving Repr

/-- Exceptions raised by the modelled Python code. -/
inductive PyErr where
  | keyError (k : String)
  | typeError (msg : String)
  | valueError (msg : String)
  | fileNotFoundError
  | jsonDecodeError (msg : String)
  | exception (missing : List String)
deriving Repr

/-- A Python dict keyed by strings: association list, first occurrence wins. -/
abbrev PyDict := List (String × PyVal)

/-- Python `d[k]` as an `Option` (`none` when the key is absent). -/
def dictLookup (d : PyDict) (k : String) : Option PyVal :=
  match d with
  | [] => none
  | (k', v) :: rest => if k' = k then some v else dictLookup rest k

/-- Python `d[k] = v`: update in place when the key exists (keeping its
position), otherwise append. -/
def dictSet (d : PyDict) (k : String) (v : PyVal) : PyDict :=
  match d with
  | [] => [(k, v)]
  | (k', v') :: rest => if k' = k then (k, v) :: rest else (k', v') :: dictSet rest k v

/-- Python `d[k]` raising `KeyError` when absent. -/
def pyDictGet (d : PyDict) (k : String) : Except PyErr PyVal :=
  match dictLookup d k with
  | some v => .ok v
  | none => .error (.keyError k)

/-- Python truthiness of the values the provider branches on. -/
def truthy : PyVal → Bool
  | .vStr s => decide (s ≠ "")
  | .vNone => false
  | .vDatetime _ => true
  | .vJson (.obj fields) => !fields.isEmpty
  | .vJson (.str s) => decide (s ≠ "")
  | .vJson .null => false

/-- Python `a or b` on provider values. -/
def pyOr (a b : PyVal) : PyVal := if truthy a then a else b

/-- Python `str(v)` for the values interpolated into f-strings by the code. -/
def pyStr : PyVal → String
  | .vStr s => s
  | .vNone => "None"
  | .vDatetime d => dtToString d
  | .vJson _ => "<json>"

/-- Python `a < b` on provider values: datetimes compare by instant (both
aware) or field order (both naive), strings lexicographically; comparing a
`str` with a `datetime` raises `TypeError` — this is what happens at
providers.py:308 once `token_expires` has been stringified. -/
def pyLt : PyVal → PyVal → Except PyErr Bool
  | .vDatetime a, .vDatetime b =>
      match a.tzMin, b.tzMin with
      | some x, some y => .ok (decide (dtUtcUs a x < dtUtcUs b y))
      | none, none => .ok (dtLtNaive a b)
      | _, _ => .error (.typeError "cannot compare offset-naive and offset-aware datetimes")
  | .vStr a, .vStr b => .ok (decide (a < b))
  | .vStr _, .vDatetime _ =>
      .error (.typeError "unsupported between instances of str and datetime.datetime")
  | .vDatetime _, .vStr _ =>
      .error (.typeError "unsupported between instances of datetime.datetime and str")
  | _, _ => .error (.typeError "unsupported operand types")

/-- Lowercase hex digit, as emitted by CPython's `json` escaper. -/
def hexDigitChar (n : Nat) : Char :=
  if n < 10 then Char.ofNat (48 + n) else Char.ofNat (87 + n)

/-- CPython `json.dumps` escaping of one character: `"` and backslash escaped,
the five short escapes for backspace/tab/newline/formfeed/carriage-return, and
`u00XX` escapes for the remaining control characters; everything else verbatim
(the `ensure_ascii` transcription of non-ASCII characters is omitted, which
does not change the `loads ∘ dumps` round trip the code relies on). -/
def escapeChar (c : Char) : List Char :=
  if c = '"' then ['\\', '"']
  else if c = '\\' then ['\\', '\\']
  else if c = Char.ofNat 8 then ['\\', 'b']
  else if c = Char.ofNat 9 then ['\\', 't']
  else if c = Char.ofNat 10 then ['\\', 'n']
  else if c = Char.ofNat 12 then ['\\', 'f']
  else if c = Char.ofNat 13 then ['\\', 'r']
  else if c.toNat < 32 then
    ['\\', 'u', '0', '0', hexDigitChar (c.toNat / 16), hexDigitChar (c.toNat % 16)]
  else [c]

/-- Escape every character of a string. -/
def escapeList : List Char → List Char
  | [] => []
  | c :: cs => escapeChar c ++ escapeList cs

/-- A serialized JSON string: quote, escaped body, quote. -/
def dumpString (s : List Char) : List Char :=
  '"' :: (escapeList s ++ ['"'])

mutual

/-- Serialization `json.dumps` of a JSON value, with CPython's default separators. -/
def dumpVal : JsonVal → List Char
  | .str s => dumpString s.data
  | .null => ['n', 'u', 'l', 'l']
  | .obj fields => '{' :: (dumpMembers fields ++ ['}'])

/-- Serialization `json.dumps` of an object body: `"key": value` pairs joined by a comma and
a space. -/
def dumpMembers : List (String × JsonVal) → List Char
  | [] => []
  | [(k, v)] => dumpString k.data ++ (':' :: ' ' :: dumpVal v)
  | (k, v) :: f :: fs =>
      dumpString k.data ++ (':' :: ' ' :: dumpVal v) ++ (',' :: ' ' :: dumpMembers (f :: fs))

end

/-- Value of a hex digit accepted in a `uXXXX` escape. -/
def hexVal (c : Char) : Option Nat :=
  if '0' ≤ c ∧ c ≤ '9' then some (c.toNat - 48)
  else if 'a' ≤ c ∧ c ≤ 'f' then some (c.toNat - 87)
  else if 'A' ≤ c ∧ c ≤ 'F' then some (c.toNat - 55)
  else none

/-- Decoding of a single-character JSON escape. -/
def unescapeChar (c : Char) : Option Char :=
  if c = '"' then some '"'
  else if c = '\\' then some '\\'
  else if c = '/' then some '/'
  else if c = 'b' then some (Char.ofNat 8)
  else if c = 'f' then some (Char.ofNat 12)
  else if c = 'n' then some (Char.ofNat 10)
  else if c = 'r' then some (Char.ofNat 13)
  else if c = 't' then some (Char.ofNat 9)
  else none

/-- Parse a JSON string body (after the opening quote) up to the closing
quote, decoding escapes and rejecting raw control characters, as CPython's
strict `json.loads` does.  Error texts follow CPython's messages (apostrophes
and backslashes elided); only the exact text `Expecting value` is ever
compared by the code under test (providers.py:102). -/
def parseStringBody : List Char → Except String (List Char × List Char)
  | [] => .error "Unterminated string starting at"
  | c :: rest =>
    if c = '"' then .ok ([], rest)
    else if c = '\\' then
      match rest with
      | [] => .error "Unterminated string starting at"
      | e :: rest2 =>
        if e = 'u' then
          match rest2 with
          | h1 :: h2 :: h3 :: h4 :: rest3 =>
            match hexVal h1, hexVal h2, hexVal h3, hexVal h4 with
            | some a, some b, some c3, some d =>
                (parseStringBody rest3).map fun p =>
                  (Char.ofNat (a * 4096 + b * 256 + c3 * 16 + d) :: p.1, p.2)
            | _, _, _, _ => .error "Invalid uXXXX escape"
          | _ => .error "Invalid uXXXX escape"
        else
          match unescapeChar e with
          | some u => (parseStringBody rest2).map fun p => (u :: p.1, p.2)
          | none => .error "Invalid escape"
    else if c.toNat < 32 then .error "Invalid control character at"
    else (parseStringBody rest).map fun p => (c :: p.1, p.2)

/-- Is `c` JSON whitespace? -/
def isJsonWs (c : Char) : Bool :=
  c = ' ' || c = Char.ofNat 9 || c = Char.ofNat 10 || c = Char.ofNat 13

/-- Skip JSON whitespace. -/
def skipWs : List Char → List Char
  | [] => []
  | c :: rest => if isJsonWs c then skipWs rest else c :: rest

/-- Parse the literal `null` after its leading `n`. -/
def parseNullTail : List Char → Except String (JsonVal × List Char)
  | 'u' :: 'l' :: 'l' :: rest => .ok (.null, rest)
  | _ => .error "Expecting value"

mutual

/-- Parse one JSON value (fuelled; `jsonLoads` supplies ample fuel, so the
fuel-exhaustion branches are unreachable there).  A leading character that
starts no value yields CPython's `Expecting value` error — in particular an
empty document does, which is the case `TokenCache.tokens` turns into an
empty dict (providers.py:101-103). -/
def parseValue : Nat → List Char → Except String (JsonVal × List Char)
  | _, [] => .error "Expecting value"
  | fuel, c :: rest =>
    if c = '"' then (parseStringBody rest).map fun p => (.str (String.mk p.1), p.2)
    else if c = '{' then
      match fuel with
      | 0 => .error "Expecting value"
      | fuel' + 1 =>
        match skipWs rest with
        | '}' :: rest2 => .ok (.obj [], rest2)
        | cs1 => (parseMembers fuel' cs1).map fun p => (.obj p.1, p.2)
    else if c = 'n' then parseNullTail rest
    else .error "Expecting value"

/-- Parse the members of a JSON object starting at its first key. -/
def parseMembers : Nat → List Char → Except String (List (String × JsonVal) × List Char)
  | 0, _ => .error "Expecting property name enclosed in double quotes"
  | fuel + 1, cs =>
    match cs with
    | '"' :: rest =>
      match parseStringBody rest with
      | .error e => .error e
      | .ok (k, rest2) =>
        match skipWs rest2 with
        | ':' :: rest3 =>
          match parseValue fuel (skipWs rest3) with
          | .error e => .error e
          | .ok (v, rest4) =>
            match skipWs rest4 with
            | ',' :: rest5 =>
                (parseMembers fuel (skipWs rest5)).map fun p =>
                  ((String.mk k, v) :: p.1, p.2)
            | '}' :: rest5 => .ok ([(String.mk k, v)], rest5)
            | _ => .error "Expecting comma delimiter"
        | _ => .error "Expecting colon delimiter"
    | _ => .error "Expecting property name enclosed in double quotes"

end

/-- Python `json.loads`: parse one value, allowing surrounding whitespace and
rejecting trailing data. -/
def jsonLoads (s : String) : Except String JsonVal :=
  let cs := skipWs s.data
  match parseValue (cs.length + 1) cs with
  | .error e => .error e
  | .ok (v, rest) => if (skipWs rest).isEmpty then .ok v else .error "Extra data"

/-- An `io.StringIO` buffer: contents plus the read/write position. -/
structure MemBuf where
  data : List Char
  pos : Nat
deriving Repr

/-- Python `StringIO.read()`: returns everything from the current position and leaves
the position at the end of the buffer (a second read returns `""`). -/
def MemBuf.read (b : MemBuf) : List Char × MemBuf :=
  (b.data.drop b.pos, { b with pos := b.data.length })

/-- The `TokenCache` backend: an in-memory `StringIO` buffer or a file path
together with the current state of that file (`none` = the file is missing). -/
inductive CacheBackend where
  | memory (buf : MemBuf)
  | file (contents : Option String)
deriving Repr

/-- Python `json` serialization of one provider value.  `datetime` values are
not JSON serializable (`cache_tokens` stringifies `token_expires` before
dumping, so this error branch is unreachable on the code's own calls);
serialization of re-parsed JSON values never occurs at the modelled call
sites. -/
def pyToJson : PyVal → Except PyErr JsonVal
  | .vStr s => .ok (.str s)
  | .vNone => .ok .null
  | .vDatetime _ => .error (.typeError "Object of type datetime is not JSON serializable")
  | .vJson j => .ok j

/-- Python `json` serialization of a whole dict. -/
def dictToJson : PyDict → Except PyErr (List (String × JsonVal))
  | [] => .ok []
  | (k, v) :: rest => do
      let j ← pyToJson v
      let tail ← dictToJson rest
      pure ((k, j) :: tail)

/-- The conversion at providers.py:79-80: if `tokens["token_expires"]` is a
`datetime`, replace it in place by `str(...)` of it. -/
def convertExpires (tokens : PyDict) : PyDict :=
  match dictLookup tokens "token_expires" with
  | some (.vDatetime d) => dictSet tokens "token_expires" (.vStr (dtToString d))
  | _ => tokens

/-- Method `TokenCache.cache_tokens` (providers.py:78-91): stringify a `datetime`
expiry in place, then replace the whole backend content with the
`json.dumps` of the dict — a fresh rewound `StringIO` for the in-memory
backend, a full file overwrite for the file backend.  Returns the (mutated)
dict alongside the write outcome, reflecting that the caller's dict alias
sees the mutation even if the write raises. -/
def cacheTokens (tokens : PyDict) (b : CacheBackend) : PyDict × Except PyErr CacheBackend :=
  let tokens' := convertExpires tokens
  match dictToJson tokens' with
  | .error e => (tokens', .error e)
  | .ok fields =>
      let text := dumpVal (.obj fields)
      match b with
      | .memory _ => (tokens', .ok (.memory { data := text, pos := 0 }))
      | .file _ => (tokens', .ok (.file (some (String.mk text))))

/-- The `TokenCache.tokens` property (providers.py:93-107): read the backend
(consuming the `StringIO` position; raising `FileNotFoundError` when the file
is absent), `json.loads` it, and turn exactly the `Expecting value` decode
error into an empty dict, re-raising any other decode error. -/
def tokensProp (b : CacheBackend) : Except PyErr (JsonVal × CacheBackend) :=
  match b with
  | .memory buf =>
      let r := buf.read
      match jsonLoads (String.mk r.1) with
      | .ok j => .ok (j, .memory r.2)
      | .error msg =>
          if msg = "Expecting value" then .ok (.obj [], .memory r.2)
          else .error (.jsonDecodeError msg)
  | .file none => .error .fileNotFoundError
  | .file (some s) =>
      match jsonLoads s with
      | .ok j => .ok (j, .file (some s))
      | .error msg =>
          if msg = "Expecting value" then .ok (.obj [], .file (some s))
          else .error (.jsonDecodeError msg)

/-- The five required Cognito settings, in source order (providers.py:23-29
names their environment variables, providers.py:55-61 their config keys). -/
def requiredEnvVars : List String :=
  ["COGNITO_APP_ID", "COGNITO_PASSWORD", "COGNITO_USERNAME",
   "COGNITO_USER_POOL_ID", "COGNITO_IDENTITY_POOL_ID"]

/-- The required keys of an explicit config mapping. -/
def requiredConfigKeys : List String :=
  ["app_id", "password", "username", "user_pool_id", "identity_pool_id"]

/-- The process environment: a finite map from variable names to strings. -/
abbrev EnvMap := List (String × String)

/-- Python `environ.get` / membership for the environment. -/
def envLookup (env : EnvMap) (k : String) : Option String :=
  match env with
  | [] => none
  | (k', v) :: rest => if k' = k then some v else envLookup rest k

/-- Function `get_cognito_config_from_env` (providers.py:22-51): collect the missing
required variables; raise naming them when some but not all are missing;
build the full config (parsing `COGNITO_METADATA` as JSON, default `{}`)
when none are missing; return `{}` when all are missing. -/
def getCognitoConfigFromEnv (env : EnvMap) : Except PyErr PyDict :=
  let missing := requiredEnvVars.filter fun k => (envLookup env k).isNone
  if missing ≠ [] ∧ missing.length ≠ requiredEnvVars.length then
    .error (.exception missing)
  else if missing = [] then do
    let meta ← match jsonLoads ((envLookup env "COGNITO_METADATA").getD "{}") with
      | .ok j => .ok j
      | .error msg => .error (.jsonDecodeError msg)
    pure [("app_id", .vStr ((envLookup env "COGNITO_APP_ID").getD "")),
          ("password", .vStr ((envLookup env "COGNITO_PASSWORD").getD "")),
          ("username", .vStr ((envLookup env "COGNITO_USERNAME").getD "")),
          ("user_pool_id", .vStr ((envLookup env "COGNITO_USER_POOL_ID").getD "")),
          ("identity_pool_id", .vStr ((envLookup env "COGNITO_IDENTITY_POOL_ID").getD "")),
          ("metadata", .vJson meta)]
  else
    .ok []

/-- Function `get_cognito_config` (providers.py:54-71): raise naming the missing
required keys whenever the mapping is truthy (non-empty) and some required
key is absent; otherwise return the mapping unchanged. -/
def getCognitoConfig (config : PyDict) : Except PyErr PyDict :=
  let missing := requiredConfigKeys.filter fun k => (dictLookup config k).isNone
  if missing ≠ [] ∧ config.isEmpty = false then
    .error (.exception missing)
  else
    .ok config

/-- The mutable identity state of a `CognitoIdentity` provider: the
`cognito_tokens` dict and the `TokenCache`. -/
structure ProviderState where
  cognito_tokens : PyDict
  token_cache : CacheBackend

/-- One `AuthenticationResult` returned by the identity service (the fields
`cognito_login` reads).  For a refresh exchange the service omits
`RefreshToken`; the code re-inserts the current one (providers.py:283). -/
structure AuthResult where
  IdToken : String
  AccessToken : String
  ExpiresIn : Nat
  RefreshToken : PyVal

/-- Which login strategy one authentication attempt used. -/
inductive AuthPath where
  | refresh
  | full
deriving Repr, DecidableEq

/-- Trace record of one authentication attempt: the strategy chosen and the
value of `cognito_tokens["refresh_token"]` at the moment of the call. -/
structure Attempt where
  path : AuthPath
  refreshTokenAtCall : PyVal

/-- Method `CognitoIdentity.cognito_login` (providers.py:198-224).  One service
round-trip per list element: `some a` is a successful `AuthenticationResult`,
`none` a raised exception.  Faithful to the source's recursion: any failure
clears `refresh_token` and recurses on itself, so the retry is unbounded —
an empty outcome list models the only way that recursion stops with no
success (the interpreter's recursion limit, whose `RecursionError` the final
`except` logs as a warning before returning `None`).  Returns the new state,
the returned `IdToken` (or `None`), and the trace of attempts. -/
def cognitoLogin (now : PyDatetime) : List (Option AuthResult) → ProviderState →
    ProviderState × Option String × List Attempt
  | [], st => (st, none, [])
  | o :: rest, st =>
      let rt := (dictLookup st.cognito_tokens "refresh_token").getD .vNone
      let att : Attempt := ⟨if truthy rt then .refresh else .full, rt⟩
      match o with
      | some a =>
          let auth := if truthy rt then { a with RefreshToken := rt } else a
          let expires_in := dtShiftSeconds now (a.ExpiresIn : Int)
          let newTokens : PyDict :=
            [("id_token", .vStr auth.IdToken),
             ("access_token", .vStr auth.AccessToken),
             ("token_expires", .vDatetime expires_in),
             ("refresh_token", auth.RefreshToken)]
          match cacheTokens newTokens st.token_cache with
          | (cached, .ok newCache) =>
              ({ cognito_tokens := cached, token_cache := newCache }, some auth.IdToken, [att])
          | (cached, .error _) =>
              let st1 : ProviderState :=
                { cognito_tokens := dictSet cached "refresh_token" .vNone,
                  token_cache := st.token_cache }
              let r := cognitoLogin now rest st1
              (r.1, r.2.1, att :: r.2.2)
      | none =>
          let st1 : ProviderState :=
            { st with cognito_tokens := dictSet st.cognito_tokens "refresh_token" .vNone }
          let r := cognitoLogin now rest st1
          (r.1, r.2.1, att :: r.2.2)

/-- The config resolution of `CognitoIdentity.__init__` (providers.py:162-163):
`get_cognito_config(config) or get_cognito_config_from_env() or {}`, followed
by the unconditional insertion of `region_name` (from the keyword argument,
the config's `region` key, or `AWS_DEFAULT_REGION`) into that same dict. -/
def initConfig (config : PyDict) (env : EnvMap) (region_name : Option String) :
    Except PyErr PyDict := do
  let c1 ← getCognitoConfig config
  let base ← if c1.isEmpty then getCognitoConfigFromEnv env else pure c1
  let rv := pyOr (match region_name with | some r => .vStr r | none => .vNone)
    (pyOr ((dictLookup config "region").getD .vNone)
      (match envLookup env "AWS_DEFAULT_REGION" with | some r => .vStr r | none => .vNone))
  pure (dictSet base "region_name" rv)

/-- The token-state initialisation of `CognitoIdentity.__init__`
(providers.py:161,170): a `StringIO`-backed cache unless one is supplied, and
`cognito_tokens["refresh_token"] = None`. -/
def initState (token_cache : Option CacheBackend) : ProviderState :=
  { cognito_tokens := dictSet [] "refresh_token" .vNone,
    token_cache := token_cache.getD (.memory { data := [], pos := 0 }) }

/-- The `GetCredentialsForIdentity` response fields read by `assume_role`. -/
structure FederationCreds where
  AccessKeyId : String
  SecretKey : String
  SessionToken : String
  Expiration : PyDatetime

/-- The `opts` mapping built at providers.py:297-303. -/
structure GetCredsOpts where
  IdentityId : String
  loginsKey : String
  loginsToken : PyVal
  CustomRoleArn : Option String

/-- The dict returned by a successful `assume_role` call. -/
structure FetchResult where
  access_key : String
  secret_key : String
  token : String
  expiry_time : PyVal

/-- The expression at providers.py:308:
`a if a < b else b` over `cognito_tokens["token_expires"]` and
`credentials["Credentials"]["Expiration"]`. -/
def expireTimeExpr (tokExpires credExpiration : PyVal) : Except PyErr PyVal := do
  let lt ← pyLt tokExpires credExpiration
  pure (if lt then tokExpires else credExpiration)

/-- Function `assume_role`, the credentials fetcher returned by
`_create_credentials_fetcher` (providers.py:287-317).  The two AWS service
calls are modelled by the function parameters `getId` (returns the
`IdentityId`) and `getCreds` (returns the `Credentials` mapping); `roleArn`
is `environ.get("AWS_ROLE_ARN")`; `now`/`outcomes` feed the `cognito_login`
fallback of line 289. -/
def assumeRole (now : PyDatetime) (outcomes : List (Option AuthResult))
    (getId : String → PyVal → String) (getCreds : GetCredsOpts → FederationCreds)
    (roleArn : Option String) (cfg : PyDict) (st : ProviderState) :
    Except PyErr (FetchResult × ProviderState) := do
  let idTok0 ← pyDictGet st.cognito_tokens "id_token"
  let stepLogin :=
    if truthy idTok0 then (st, idTok0)
    else
      let r := cognitoLogin now outcomes st
      (r.1, match r.2.1 with | some s => PyVal.vStr s | none => PyVal.vNone)
  let st1 := stepLogin.1
  let idToken := stepLogin.2
  let region ← pyDictGet cfg "region_name"
  let pool ← pyDictGet cfg "user_pool_id"
  let ipid ← pyDictGet cfg "identity_pool_id"
  let loginsKey := "cognito-idp." ++ pyStr region ++ ".amazonaws.com/" ++ pyStr pool
  let identityId := getId (pyStr ipid) idToken
  let credentials := getCreds ⟨identityId, loginsKey, idToken, roleArn⟩
  let tokExpires ← pyDictGet st1.cognito_tokens "token_expires"
  let expire_time ← expireTimeExpr tokExpires (.vDatetime credentials.Expiration)
  pure ({ access_key := credentials.AccessKeyId,
          secret_key := credentials.SecretKey,
          token := credentials.SessionToken,
          expiry_time := expire_time }, st1)

/-- The `RefreshableCredentials` object built by `load`. -/
structure RefreshableCreds where
  access_key : String
  secret_key : String
  token : String
  expiry_time : PyVal

/-- Method `CognitoIdentity.load` (providers.py:179-193): if `self.config` is truthy
(non-empty), run the fetcher once and wrap its result; otherwise return
`None` (no credentials). -/
def CognitoIdentity.load (cfg : PyDict) (st : ProviderState) (now : PyDatetime)
    (outcomes : List (Option AuthResult)) (getId : String → PyVal → String)
    (getCreds : GetCredsOpts → FederationCreds) (roleArn : Option String) :
    Except PyErr (Option RefreshableCreds) :=
  if cfg.isEmpty = false then do
    let r ← assumeRole now outcomes getId getCreds roleArn cfg st
    pure (some ⟨r.1.access_key, r.1.secret_key, r.1.token, r.1.expiry_time⟩)
  else
    pure none

/-- Python `datetime.strptime(s, "%Y-%m-%dT%H:%M:%S")` as called at providers.py:143:
accepts exactly `YYYY-MM-DDTHH:MM:SS` (zero-padded, which is the only shape
relevant here) and raises `ValueError` for anything else — in particular for
`str(datetime)` output, whose separator is a space and which carries
microseconds and a UTC offset. -/
def strptimeYmdTHMS (s : String) : Except PyErr PyDatetime :=
  match s.data with
  | [y1, y2, y3, y4, '-', m1, m2, '-', d1, d2, 'T', h1, h2, ':', n1, n2, ':', s1, s2] =>
      let ds := [y1, y2, y3, y4, m1, m2, d1, d2, h1, h2, n1, n2, s1, s2]
      if ds.all (fun c => decide ('0' ≤ c) && decide (c ≤ '9')) then
        let v : Char → Nat := fun c => c.toNat - 48
        .ok { year := ((v y1 * 10 + v y2) * 10 + v y3) * 10 + v y4,
              month := v m1 * 10 + v m2, day := v d1 * 10 + v d2,
              hour := v h1 * 10 + v h2, minute := v n1 * 10 + v n2,
              second := v s1 * 10 + v s2, microsecond := 0, tzMin := none }
      else .error (.valueError "time data does not match format")
  | _ => .error (.valueError "time data does not match format")

/-- One evaluation of the inner `while` guard of `TokenFetcher.login_loop`
(providers.py:143):
`datetime.strptime(tokens["token_expires"], "%Y-%m-%dT%H:%M:%S") < datetime.now() - timedelta(seconds=60)`.
`ok true` means the loop sleeps five seconds and re-tests; `ok false` means
it falls through and calls `cognito_login()` immediately; `error` means the
loop (and its daemon thread) dies with the exception. -/
def loginLoopGuard (token_expires : String) (now : PyDatetime) : Except PyErr Bool := do
  let expires ← strptimeYmdTHMS token_expires
  pure (dtLtNaive expires (dtShiftSeconds now (-60)))

/-- A provider state whose `token_expires` entry holds a (stringified)
`str` value — the state left behind by every successful `cognito_login`. -/
def hasStrExpiry (st : ProviderState) : Prop :=
  ∃ s, dictLookup st.cognito_tokens "token_expires" = some (.vStr s)

/-- A JSON value of the shape the token cache stores: a string or `null`. -/
def flatJson (v : JsonVal) : Prop :=
  (∃ s, v = .str s) ∨ v = .null

/-- The `cognito_tokens` dict built by a successful login before caching
(providers.py:208-213), parameterised by its four values. -/
def tokenDict (idTok accTok : String) (expires : PyVal) (refresh : PyVal) : PyDict :=
  [("id_token", .vStr idTok), ("access_token", .vStr accTok),
   ("token_expires", expires), ("refresh_token", refresh)]

/-- Refresh-token values as they come back from a full login: a string
(mapped from `some`) or `None` — the JSON-serializable cases. -/
def rtVal : Option String → PyVal
  | some s => .vStr s
  | none => .vNone

/-- The JSON image of a refresh-token value. -/
def rtJson : Option String → JsonVal
  | some s => .str s
  | none => .null

/-! ### Association-list dict lemmas -/

theorem dictLookup_dictSet_self (d : PyDict) (k : String) (v : PyVal) :
    dictLookup (dictSet d k v) k = some v := by
  induction d with
  | nil => simp [dictSet, dictLookup]
  | cons p rest ih =>
      obtain ⟨k', v'⟩ := p
      by_cases h : k' = k <;> simp [dictSet, dictLookup, h, ih]

theorem dictLookup_dictSet_ne (d : PyDict) (k k' : String) (v : PyVal) (h : k' ≠ k) :
    dictLookup (dictSet d k' v) k = dictLookup d k := by
  induction d with
  | nil => simp [dictSet, dictLookup, h]
  | cons p rest ih =>
      obtain ⟨k'', v''⟩ := p
      by_cases h2 : k'' = k' <;> simp [dictSet, dictLookup, h, h2, ih]

theorem dictSet_ne_nil (d : PyDict) (k : String) (v : PyVal) :
    dictSet d k v ≠ [] := by
  cases d with
  | nil => simp [dictSet]
  | cons p rest =>
      obtain ⟨k', v'⟩ := p
      by_cases h : k' = k <;> simp [dictSet, h]

/-! ### Behaviour of the `cognito_login` recursion -/

theorem cognitoLogin_attempts_rt_none (now : PyDatetime)
    (outs : List (Option AuthResult)) (st : ProviderState)
    (h : (dictLookup st.cognito_tokens "refresh_token").getD .vNone = .vNone) :
    ∀ att ∈ (cognitoLogin now outs st).2.2, att.path = .full ∧ att.refreshTokenAtCall = .vNone := by
  induction outs generalizing st with
  | nil => simp [cognitoLogin]
  | cons o rest ih =>
      cases o with
      | none =>
          simp only [cognitoLogin, h, truthy]
          intro att hatt
          rcases List.mem_cons.mp hatt with h1 | h1
          · simp [h1]
          · exact ih _ (by simp [dictLookup_dictSet_self]) att h1
      | some a =>
          simp only [cognitoLogin, h, truthy, Bool.false_eq_true, if_false]
          split
          next cached newCache hc => simp
          next cached e hc =>
              intro att hatt
              rcases List.mem_cons.mp hatt with h1 | h1
              · simp [h1]
              · exact ih _ (by simp [dictLookup_dictSet_self]) att h1

theorem cacheTokens_fst (tokens : PyDict) (b : CacheBackend) :
    (cacheTokens tokens b).1 = convertExpires tokens := by
  simp only [cacheTokens]
  rcases dictToJson (convertExpires tokens) with e | fields
  · rfl
  · cases b <;> rfl

theorem cacheTokens_eq_convert {tokens : PyDict} {b : CacheBackend}
    {p : PyDict × Except PyErr CacheBackend} (h : cacheTokens tokens b = p) :
    p.1 = convertExpires tokens := by
  rw [← h, cacheTokens_fst]

theorem convertExpires_lookup (tokens : PyDict) (d : PyDatetime)
    (h : dictLookup tokens "token_expires" = some (.vDatetime d)) :
    dictLookup (convertExpires tokens) "token_expires" = some (.vStr (dtToString d)) := by
  simp [convertExpires, h, dictLookup_dictSet_self]

theorem cognitoLogin_expStr (now : PyDatetime) (outs : List (Option AuthResult))
    (st : ProviderState) (h : hasStrExpiry st) :
    hasStrExpiry (cognitoLogin now outs st).1 := by
  induction outs generalizing st with
  | nil => simpa [cognitoLogin] using h
  | cons o rest ih =>
      obtain ⟨s, hs⟩ := h
      cases o with
      | none =>
          simp only [cognitoLogin]
          exact ih _ ⟨s, by
            rw [dictLookup_dictSet_ne st.cognito_tokens "token_expires" "refresh_token"
              PyVal.vNone (by decide)]
            exact hs⟩
      | some a =>
          simp only [cognitoLogin]
          split
          next cached newCache hc =>
              have h1 : cached = convertExpires _ := cacheTokens_eq_convert hc
              refine ⟨dtToString (dtShiftSeconds now (a.ExpiresIn : Int)), ?_⟩
              show dictLookup cached "token_expires" = _
              rw [h1]
              exact convertExpires_lookup _ _ (by simp [dictLookup])
          next cached e hc =>
              have h1 : cached = convertExpires _ := cacheTokens_eq_convert hc
              refine ih _ ⟨dtToString (dtShiftSeconds now (a.ExpiresIn : Int)), ?_⟩
              show dictLookup (dictSet cached "refresh_token" PyVal.vNone) "token_expires" = _
              rw [dictLookup_dictSet_ne cached "token_expires" "refresh_token"
                PyVal.vNone (by decide), h1]
              exact convertExpires_lookup _ _ (by simp [dictLookup])

theorem cognitoLogin_success_expStr (now : PyDatetime) (outs : List (Option AuthResult))
    (st : ProviderState) (tok : String) (h : (cognitoLogin now outs st).2.1 = some tok) :
    hasStrExpiry (cognitoLogin now outs st).1 := by
  induction outs generalizing st with
  | nil => simp [cognitoLogin] at h
  | cons o rest ih =>
      cases o with
      | none =>
          simp only [cognitoLogin] at h ⊢
          exact ih _ h
      | some a =>
          simp only [cognitoLogin] at h ⊢
          revert h
          split
          next cached newCache hc =>
              intro h
              have h1 : cached = convertExpires _ := cacheTokens_eq_convert hc
              refine ⟨dtToString (dtShiftSeconds now (a.ExpiresIn : Int)), ?_⟩
              show dictLookup cached "token_expires" = _
              rw [h1]
              exact convertExpires_lookup _ _ (by simp [dictLookup])
          next cached e hc =>
              intro h
              exact ih _ h

theorem cognitoLogin_allFail (now : PyDatetime) (n : Nat) (st : ProviderState) :
    (cognitoLogin now (List.replicate n none) st).2.1 = none ∧
      (cognitoLogin now (List.replicate n none) st).2.2.length = n := by
  induction n generalizing st with
  | zero => simp [cognitoLogin]
  | succ n ih =>
      simp only [List.replicate_succ, cognitoLogin]
      exact ⟨(ih _).1, by simp [(ih _).2]⟩

theorem cacheTokens_tokenDict_ok (i acc : String) (d : PyDatetime) (r : Option String)
    (b : CacheBackend) :
    ∃ nc, cacheTokens (tokenDict i acc (.vDatetime d) (rtVal r)) b =
      (tokenDict i acc (.vStr (dtToString d)) (rtVal r), .ok nc) := by
  cases r <;> cases b <;>
    simp [cacheTokens, tokenDict, convertExpires, dictLookup, dictSet, dictToJson, pyToJson,
      rtVal, Bind.bind, Except.bind, pure, Except.pure]

theorem cognitoLogin_failThenSuccess (now : PyDatetime) (n : Nat) (st : ProviderState)
    (a : AuthResult) (rest : List (Option AuthResult)) (r0 ra : Option String)
    (h0 : (dictLookup st.cognito_tokens "refresh_token").getD .vNone = rtVal r0)
    (ha : a.RefreshToken = rtVal ra) :
    (cognitoLogin now (List.replicate n none ++ some a :: rest) st).2.1 = some a.IdToken ∧
      (cognitoLogin now (List.replicate n none ++ some a :: rest) st).2.2.length = n + 1 := by
  induction n generalizing st r0 with
  | zero =>
      simp only [List.replicate, List.nil_append, cognitoLogin, h0]
      by_cases ht : truthy (rtVal r0) = true
      · simp only [ht, if_true]
        obtain ⟨nc, hc⟩ := cacheTokens_tokenDict_ok a.IdToken a.AccessToken
          (dtShiftSeconds now (a.ExpiresIn : Int)) r0 st.token_cache
        simp only [tokenDict] at hc
        simp [hc]
      · simp only [ht, if_false]
        obtain ⟨nc, hc⟩ := cacheTokens_tokenDict_ok a.IdToken a.AccessToken
          (dtShiftSeconds now (a.ExpiresIn : Int)) ra st.token_cache
        simp only [tokenDict, ha] at hc ⊢
        simp [hc, ha]
  | succ n ih =>
      simp only [List.replicate_succ, List.cons_append, cognitoLogin]
      have := ih { st with cognito_tokens := dictSet st.cognito_tokens "refresh_token" .vNone }
        none (by simp [dictLookup_dictSet_self, rtVal])
      exact ⟨this.1, by simp [this.2]⟩

theorem cognitoLogin_refresh_first (now : PyDatetime) (o : Option AuthResult)
    (rest : List (Option AuthResult)) (st : ProviderState) (s : String)
    (h : (dictLookup st.cognito_tokens "refresh_token").getD .vNone = .vStr s) (hs : s ≠ "") :
    ∃ tail, (cognitoLogin now (o :: rest) st).2.2 = ⟨.refresh, .vStr s⟩ :: tail ∧
      ∀ att ∈ tail, att.path = .full ∧ att.refreshTokenAtCall = .vNone := by
  have ht : truthy (.vStr s) = true := by simp [truthy, hs]
  cases o with
  | none =>
      simp only [cognitoLogin, h, ht, if_true]
      exact ⟨_, rfl, cognitoLogin_attempts_rt_none now rest _
        (by simp [dictLookup_dictSet_self])⟩
  | some a =>
      simp only [cognitoLogin, h, ht, if_true]
      split
      next cached newCache hc => exact ⟨[], rfl, by simp⟩
      next cached e hc =>
          exact ⟨_, rfl, cognitoLogin_attempts_rt_none now rest _
            (by simp [dictLookup_dictSet_self])⟩


/-! ### JSON dump/parse round trip and fetcher helpers -/

theorem hexVal_hexDigitChar : ∀ k < 16, hexVal (hexDigitChar k) = some k := by decide

theorem parseStringBody_escape (s r : List Char) :
    parseStringBody (escapeList s ++ '"' :: r) = .ok (s, r) := by
  induction s with
  | nil =>
      rw [parseStringBody.eq_def]
      simp [escapeList]
  | cons c cs ih =>
      by_cases h1 : c = '"'
      · subst h1
        rw [escapeList, escapeChar]
        simp only [if_true, reduceIte, List.cons_append, List.nil_append]
        rw [parseStringBody.eq_def]
        simp [unescapeChar, ih, Except.map]
      by_cases h2 : c = '\\'
      · subst h2
        rw [escapeList, escapeChar]
        simp only [reduceIte, List.cons_append, List.nil_append]
        rw [parseStringBody.eq_def]
        simp [unescapeChar, ih, Except.map]
      by_cases h3 : c = Char.ofNat 8
      · subst h3
        rw [escapeList, escapeChar]
        simp only [reduceIte, List.cons_append, List.nil_append]
        rw [parseStringBody.eq_def]
        simp [unescapeChar, ih, Except.map]
      by_cases h4 : c = Char.ofNat 9
      · subst h4
        rw [escapeList, escapeChar]
        simp only [reduceIte, List.cons_append, List.nil_append]
        rw [parseStringBody.eq_def]
        simp [unescapeChar, ih, Except.map]
      by_cases h5 : c = Char.ofNat 10
      · subst h5
        rw [escapeList, escapeChar]
        simp only [reduceIte, List.cons_append, List.nil_append]
        rw [parseStringBody.eq_def]
        simp [unescapeChar, ih, Except.map]
      by_cases h6 : c = Char.ofNat 12
      · subst h6
        rw [escapeList, escapeChar]
        simp only [reduceIte, List.cons_append, List.nil_append]
        rw [parseStringBody.eq_def]
        simp [unescapeChar, ih, Except.map]
      by_cases h7 : c = Char.ofNat 13
      · subst h7
        rw [escapeList, escapeChar]
        simp only [reduceIte, List.cons_append, List.nil_append]
        rw [parseStringBody.eq_def]
        simp [unescapeChar, ih, Except.map]
      by_cases h8 : c.toNat < 32
      · have hhi : hexVal (hexDigitChar (c.toNat / 16)) = some (c.toNat / 16) :=
          hexVal_hexDigitChar _ (by omega)
        have hlo : hexVal (hexDigitChar (c.toNat % 16)) = some (c.toNat % 16) :=
          hexVal_hexDigitChar _ (by omega)
        have harith : c.toNat / 16 * 16 + c.toNat % 16 = c.toNat := by omega
        rw [escapeList, escapeChar]
        simp only [h1, h2, h3, h4, h5, h6, h7, h8, if_true, if_false, reduceIte,
          List.cons_append, List.nil_append]
        rw [parseStringBody.eq_def]
        have h0 : hexVal '0' = some 0 := rfl
        simp [hhi, hlo, h0, harith, Char.ofNat_toNat, ih, Except.map]
      · rw [escapeList, escapeChar]
        simp only [h1, h2, h3, h4, h5, h6, h7, h8, if_true, if_false, reduceIte,
          List.cons_append, List.nil_append]
        rw [parseStringBody.eq_def]
        simp [h1, h2, h8, ih, Except.map]

theorem skipWs_not_ws (c : Char) (r : List Char) (h : isJsonWs c = false) :
    skipWs (c :: r) = c :: r := by
  simp [skipWs, h]

theorem parseValue_dumpString (fuel : Nat) (s : String) (r : List Char) :
    parseValue fuel (dumpString s.data ++ r) = .ok (.str s, r) := by
  have he : dumpString s.data ++ r = '"' :: (escapeList s.data ++ '"' :: r) := by
    simp [dumpString]
  rw [he]
  cases fuel <;> simp [parseValue, parseStringBody_escape, Except.map]

theorem parseValue_dumpFlat (v : JsonVal) (hv : flatJson v) (fuel : Nat) (r : List Char) :
    parseValue fuel (dumpVal v ++ r) = .ok (v, r) := by
  rcases hv with ⟨s, rfl⟩ | rfl
  · exact parseValue_dumpString fuel s r
  · cases fuel <;> simp [dumpVal, parseValue, parseNullTail]

theorem parseMembers_dump (fields : List (String × JsonVal)) :
    fields ≠ [] → (∀ p ∈ fields, flatJson p.2) →
    ∀ fuel, fields.length ≤ fuel → ∀ r,
      parseMembers fuel (dumpMembers fields ++ '}' :: r) = .ok (fields, r) := by
  induction fields with
  | nil => intro h; exact absurd rfl h
  | cons kv fs ih =>
      obtain ⟨k, v⟩ := kv
      intro _ hf fuel hfuel r
      have hvflat : flatJson v := hf (k, v) (by simp)
      have hskipv : ∀ tail : List Char, skipWs (dumpVal v ++ tail) = dumpVal v ++ tail := by
        intro tail
        rcases hvflat with ⟨s2, rfl⟩ | rfl
        · simp only [dumpVal, dumpString, List.cons_append]
          exact skipWs_not_ws _ _ (by rfl)
        · simp only [dumpVal, List.cons_append]
          exact skipWs_not_ws _ _ (by rfl)
      cases fuel with
      | zero => simp at hfuel
      | succ fuel =>
          cases fs with
          | nil =>
              have hd : dumpMembers [(k, v)] ++ '}' :: r
                  = '"' :: (escapeList k.data ++ '"' :: (':' :: ' ' :: (dumpVal v ++ '}' :: r))) := by
                simp [dumpMembers, dumpString]
              rw [hd]
              have hv1 := parseValue_dumpFlat v hvflat fuel ('}' :: r)
              simp [parseMembers, parseStringBody_escape, skipWs, isJsonWs, hskipv, hv1]
          | cons f fs2 =>
              have hd : dumpMembers ((k, v) :: f :: fs2) ++ '}' :: r
                  = '"' :: (escapeList k.data ++ '"' ::
                      (':' :: ' ' :: (dumpVal v ++ ',' :: ' ' :: (dumpMembers (f :: fs2) ++ '}' :: r)))) := by
                simp [dumpMembers, dumpString]
              rw [hd]
              have hv1 := parseValue_dumpFlat v hvflat fuel
                (',' :: ' ' :: (dumpMembers (f :: fs2) ++ '}' :: r))
              have hskipm : skipWs (dumpMembers (f :: fs2) ++ '}' :: r)
                  = dumpMembers (f :: fs2) ++ '}' :: r := by
                obtain ⟨k2, v2⟩ := f
                cases fs2 <;>
                · simp only [dumpMembers, dumpString, List.cons_append, List.append_assoc]
                  exact skipWs_not_ws _ _ (by rfl)
              have hrec := ih (by simp) (fun p hp => hf p (by simp [hp])) fuel
                (by simpa using hfuel) r
              simp [parseMembers, parseStringBody_escape, skipWs, isJsonWs, hskipv, hskipm,
                hv1, hrec, Except.map]

theorem parseValue_dumpObj (fields : List (String × JsonVal))
    (hf : ∀ p ∈ fields, flatJson p.2) (fuel : Nat) (h : fields.length < fuel)
    (r : List Char) :
    parseValue fuel (dumpVal (.obj fields) ++ r) = .ok (.obj fields, r) := by
  cases fuel with
  | zero => omega
  | succ fuel =>
      cases fields with
      | nil => simp [dumpVal, dumpMembers, parseValue, skipWs, isJsonWs]
      | cons f fs =>
          obtain ⟨k, v⟩ := f
          obtain ⟨t, ht⟩ : ∃ t, dumpMembers ((k, v) :: fs) = '"' :: t := by
            cases fs <;> simp [dumpMembers, dumpString]
          have hd : dumpVal (.obj ((k, v) :: fs)) ++ r = '{' :: ('"' :: (t ++ '}' :: r)) := by
            simp [dumpVal, ht]
          rw [hd]
          have hm := parseMembers_dump ((k, v) :: fs) (by simp) hf fuel
            (by simpa using Nat.lt_succ_iff.mp h) r
          have hm2 : parseMembers fuel ('"' :: (t ++ '}' :: r)) = .ok ((k, v) :: fs, r) := by
            rw [show ('"' :: (t ++ '}' :: r) : List Char)
              = dumpMembers ((k, v) :: fs) ++ '}' :: r from by simp [ht]]
            exact hm
          simp [parseValue, skipWs, isJsonWs, hm2, Except.map]

theorem length_le_dumpMembers (fields : List (String × JsonVal)) :
    fields.length ≤ (dumpMembers fields).length := by
  induction fields with
  | nil => simp [dumpMembers]
  | cons f fs ih =>
      obtain ⟨k, v⟩ := f
      cases fs with
      | nil => simp [dumpMembers, dumpString]
      | cons f2 fs2 =>
          simp only [dumpMembers, dumpString, List.length_cons, List.length_append]
          simp at ih ⊢
          omega

theorem jsonLoads_dumpObj (fields : List (String × JsonVal))
    (hf : ∀ p ∈ fields, flatJson p.2) :
    jsonLoads (String.mk (dumpVal (.obj fields))) = .ok (.obj fields) := by
  have hshape : ∃ t, dumpVal (.obj fields) = '{' :: t := by
    cases fields <;> simp [dumpVal]
  obtain ⟨t, ht⟩ := hshape
  have hlen : fields.length < (dumpVal (.obj fields)).length + 1 := by
    have h2 : (dumpVal (.obj fields)).length = (dumpMembers fields).length + 2 := by
      simp [dumpVal]
    have := length_le_dumpMembers fields
    omega
  have hv := parseValue_dumpObj fields hf ((dumpVal (.obj fields)).length + 1) hlen []
  rw [List.append_nil] at hv
  have hskip : skipWs (dumpVal (.obj fields)) = dumpVal (.obj fields) := by
    rw [ht]; exact skipWs_not_ws _ _ (by rfl)
  simp only [jsonLoads]
  rw [show skipWs (String.mk (dumpVal (.obj fields))).data = dumpVal (.obj fields) from hskip]
  rw [hv]
  simp [skipWs]

theorem expireTimeExpr_min (d1 d2 : PyDatetime) (x y : Int)
    (h1 : d1.tzMin = some x) (h2 : d2.tzMin = some y) :
    expireTimeExpr (.vDatetime d1) (.vDatetime d2)
        = .ok (.vDatetime (if dtUtcUs d1 x < dtUtcUs d2 y then d1 else d2))
      ∧ (if dtUtcUs d1 x < dtUtcUs d2 y then dtUtcUs d1 x else dtUtcUs d2 y)
        = min (dtUtcUs d1 x) (dtUtcUs d2 y) := by
  constructor
  · simp only [expireTimeExpr, pyLt, h1, h2, Bind.bind, Except.bind, pure, Except.pure]
    by_cases hlt : dtUtcUs d1 x < dtUtcUs d2 y <;> simp [hlt]
  · by_cases hlt : dtUtcUs d1 x < dtUtcUs d2 y <;> simp [hlt, min_def] <;> omega

theorem assumeRole_strExpiry_ne_ok (now : PyDatetime) (outs : List (Option AuthResult))
    (gi : String → PyVal → String) (gc : GetCredsOpts → FederationCreds)
    (ra : Option String) (cfg : PyDict) (st : ProviderState)
    (h : hasStrExpiry st) (r : FetchResult × ProviderState) :
    assumeRole now outs gi gc ra cfg st ≠ .ok r := by
  intro hok
  simp only [assumeRole, Bind.bind, Except.bind, pure, Except.pure] at hok
  split at hok
  · exact Except.noConfusion hok
  next v hv =>
    split at hok
    · exact Except.noConfusion hok
    next v1 hv1 =>
      split at hok
      · exact Except.noConfusion hok
      next v2 hv2 =>
        split at hok
        · exact Except.noConfusion hok
        next v3 hv3 =>
          by_cases ht : truthy v = true
          · simp only [ht, if_true] at hok
            obtain ⟨s1, hs1⟩ := h
            rw [show pyDictGet st.cognito_tokens "token_expires" = .ok (.vStr s1) by
              simp [pyDictGet, hs1]] at hok
            simp only [expireTimeExpr, pyLt, Bind.bind, Except.bind] at hok
            exact Except.noConfusion hok
          · simp only [ht, Bool.false_eq_true, if_false] at hok
            obtain ⟨s1, hs1⟩ := cognitoLogin_expStr now outs st h
            rw [show pyDictGet (cognitoLogin now outs st).1.cognito_tokens "token_expires"
                = .ok (.vStr s1) by simp [pyDictGet, hs1]] at hok
            simp only [expireTimeExpr, pyLt, Bind.bind, Except.bind] at hok
            exact Except.noConfusion hok

/-! ### Claim theorems -/

/-- Claim C1 (code_bug evidence).  The claim states that every successful
credential fetch returns `expiry = min(token_expires, Expiration)`.  In the
code, `cache_tokens` has stringified `token_expires` after every successful
`cognito_login`, so the comparison at providers.py:308 raises `TypeError`
and `assume_role` can never return successfully from such a state (first
conjunct); the conditional expression itself — on the `datetime` values the
comment at providers.py:307 intends — does compute the joint minimum
(second conjunct). -/
theorem c1_joint_expiry_defect :
    (∀ (now : PyDatetime) (outs : List (Option AuthResult)) (gi : String → PyVal → String)
        (gc : GetCredsOpts → FederationCreds) (ra : Option String) (cfg : PyDict)
        (st : ProviderState), hasStrExpiry st → ∀ r,
        assumeRole now outs gi gc ra cfg st ≠ .ok r)
  ∧ (∀ (d1 d2 : PyDatetime) (x y : Int), d1.tzMin = some x → d2.tzMin = some y →
        expireTimeExpr (.vDatetime d1) (.vDatetime d2)
            = .ok (.vDatetime (if dtUtcUs d1 x < dtUtcUs d2 y then d1 else d2))
          ∧ (if dtUtcUs d1 x < dtUtcUs d2 y then dtUtcUs d1 x else dtUtcUs d2 y)
            = min (dtUtcUs d1 x) (dtUtcUs d2 y)) :=
  ⟨fun now outs gi gc ra cfg st h r => assumeRole_strExpiry_ne_ok now outs gi gc ra cfg st h r,
   fun d1 d2 x y h1 h2 => expireTimeExpr_min d1 d2 x y h1 h2⟩

/-- Claim C1 witness: a concrete post-login state on which the fetch cannot
succeed, and a concrete pair of aware datetimes on which the expiry
expression picks the earlier one. -/
theorem c1_joint_expiry_defect_witness :
    (assumeRole ⟨2026, 1, 1, 0, 0, 0, 0, some 0⟩ [] (fun _ _ => "IID")
        (fun _ => ⟨"AK", "SK", "ST", ⟨2026, 1, 1, 1, 0, 0, 0, some 0⟩⟩) none
        [("region_name", .vStr "r"), ("user_pool_id", .vStr "p"), ("identity_pool_id", .vStr "i")]
        ⟨[("id_token", .vStr "ID"), ("access_token", .vStr "AC"),
          ("token_expires", .vStr "2026-01-01 01:00:00+00:00"), ("refresh_token", .vNone)],
          .memory ⟨[], 0⟩⟩
      ≠ .ok (⟨"AK", "SK", "ST", .vNone⟩,
        ⟨[("id_token", .vStr "ID"), ("access_token", .vStr "AC"),
          ("token_expires", .vStr "2026-01-01 01:00:00+00:00"), ("refresh_token", .vNone)],
          .memory ⟨[], 0⟩⟩))
  ∧ (expireTimeExpr (.vDatetime ⟨2026, 1, 1, 1, 0, 0, 0, some 0⟩)
        (.vDatetime ⟨2026, 1, 1, 0, 30, 0, 0, some 0⟩)
      = .ok (.vDatetime (if dtUtcUs ⟨2026, 1, 1, 1, 0, 0, 0, some 0⟩ 0
            < dtUtcUs ⟨2026, 1, 1, 0, 30, 0, 0, some 0⟩ 0
          then ⟨2026, 1, 1, 1, 0, 0, 0, some 0⟩ else ⟨2026, 1, 1, 0, 30, 0, 0, some 0⟩))) :=
  ⟨c1_joint_expiry_defect.1 ⟨2026, 1, 1, 0, 0, 0, 0, some 0⟩ [] (fun _ _ => "IID")
      (fun _ => ⟨"AK", "SK", "ST", ⟨2026, 1, 1, 1, 0, 0, 0, some 0⟩⟩) none
      [("region_name", .vStr "r"), ("user_pool_id", .vStr "p"), ("identity_pool_id", .vStr "i")]
      ⟨[("id_token", .vStr "ID"), ("access_token", .vStr "AC"),
        ("token_expires", .vStr "2026-01-01 01:00:00+00:00"), ("refresh_token", .vNone)],
        .memory ⟨[], 0⟩⟩
      ⟨"2026-01-01 01:00:00+00:00", rfl⟩ _,
   (c1_joint_expiry_defect.2 ⟨2026, 1, 1, 1, 0, 0, 0, some 0⟩ ⟨2026, 1, 1, 0, 30, 0, 0, some 0⟩
      0 0 rfl rfl).1⟩

/-- Claim C2 (code_bug evidence).  The claim states `load()` returns the
no-credentials value (`None`) exactly when no AuthConfig is present.  In the
code `__init__` unconditionally inserts `region_name` into `self.config`
(providers.py:163), so every resolved config is non-empty (first conjunct)
and `load()` can never return `None` (second conjunct); with empty explicit
config and empty environment the resolved config is exactly
`{region_name: None}` (third conjunct) and `load()` then raises
`KeyError("id_token")` out of the fetcher instead of returning `None`
(fourth conjunct). -/
theorem c2_load_never_no_credentials :
    (∀ (config : PyDict) (env : EnvMap) (region_name : Option String) (cfg : PyDict),
        initConfig config env region_name = .ok cfg → cfg ≠ [])
  ∧ (∀ (cfg : PyDict) (st : ProviderState) (now : PyDatetime)
        (outs : List (Option AuthResult)) (gi : String → PyVal → String)
        (gc : GetCredsOpts → FederationCreds) (ra : Option String),
        cfg ≠ [] →
        CognitoIdentity.load cfg st now outs gi gc ra ≠ .ok none)
  ∧ (initConfig [] [] none = .ok [("region_name", .vNone)])
  ∧ (∀ (now : PyDatetime) (outs : List (Option AuthResult)) (gi : String → PyVal → String)
        (gc : GetCredsOpts → FederationCreds) (ra : Option String),
        CognitoIdentity.load [("region_name", .vNone)] (initState none) now outs gi gc ra
          = .error (.keyError "id_token")) := by
  refine ⟨?_, ?_, rfl, fun now outs gi gc ra => rfl⟩
  · intro config env rn cfg h
    simp only [initConfig, Bind.bind, Except.bind, pure, Except.pure] at h
    split at h
    · simp at h
    · split at h
      · split at h
        · simp at h
        · rw [Except.ok.injEq] at h
          rw [← h]
          exact dictSet_ne_nil _ _ _
      · rw [Except.ok.injEq] at h
        rw [← h]
        exact dictSet_ne_nil _ _ _
  · intro cfg st now outs gi gc ra hne hok
    have hB : cfg.isEmpty = false := by
      cases cfg
      · exact absurd rfl hne
      · rfl
    simp only [CognitoIdentity.load, hB, if_true, Bind.bind, Except.bind] at hok
    revert hok
    split
    · intro hok
      rcases hok with ⟨⟩
    · intro hok
      simp [pure, Except.pure] at hok

/-- Claim C2 witness: the empty-input instantiation of the first conjunct and a
concrete non-empty config on which `load` cannot return `.ok none`. -/
theorem c2_load_never_no_credentials_witness :
    ([("region_name", PyVal.vNone)] ≠ ([] : PyDict))
  ∧ (CognitoIdentity.load [("region_name", .vNone)] (initState none)
      ⟨2026, 1, 1, 0, 0, 0, 0, none⟩ [] (fun _ _ => "IID")
      (fun _ => ⟨"AK", "SK", "ST", ⟨2026, 1, 1, 1, 0, 0, 0, some 0⟩⟩) none ≠ .ok none) :=
  ⟨c2_load_never_no_credentials.1 [] [] none [("region_name", .vNone)] rfl,
   c2_load_never_no_credentials.2.1 [("region_name", .vNone)] (initState none)
     ⟨2026, 1, 1, 0, 0, 0, 0, none⟩ [] (fun _ _ => "IID")
     (fun _ => ⟨"AK", "SK", "ST", ⟨2026, 1, 1, 1, 0, 0, 0, some 0⟩⟩) none (by simp)⟩

/-- Claim C3 counterexample.  With a held refresh token `"R"`, a failing
refresh, a failing first full login and a succeeding second full login, the
code makes TWO full-login attempts, refuting the claim's "exactly one
fallback full-login attempt". -/
theorem c3_counterexample :
    ((cognitoLogin ⟨2026, 1, 1, 0, 0, 0, 0, none⟩
        [none, none, some ⟨"ID3", "AC3", 3600, .vStr "RT3"⟩]
        ⟨[("refresh_token", .vStr "R")], .memory ⟨[], 0⟩⟩).2.2.filter
          (fun att => decide (att.path = .full))).length = 2 := by
  simp [cognitoLogin, dictLookup, dictSet, truthy, cacheTokens, convertExpires, dictToJson,
    pyToJson, Bind.bind, Except.bind, pure, Except.pure]

/-- Claim C3 (amended).  Whenever `cognito_login` runs with a truthy held
refresh token, the first attempt uses the refresh path with that token, and
every later attempt (one per further failure, possibly several) is a full
login made with a null refresh token; exactly one fallback occurs only when
the first fallback succeeds, and a refresh failure is never re-raised. -/
theorem c3_refresh_then_full_fallbacks (now : PyDatetime) (o : Option AuthResult)
    (rest : List (Option AuthResult)) (st : ProviderState) (s : String)
    (h : (dictLookup st.cognito_tokens "refresh_token").getD .vNone = .vStr s) (hs : s ≠ "") :
    ∃ tail, (cognitoLogin now (o :: rest) st).2.2 = ⟨.refresh, .vStr s⟩ :: tail ∧
      ∀ att ∈ tail, att.path = .full ∧ att.refreshTokenAtCall = .vNone :=
  cognitoLogin_refresh_first now o rest st s h hs

/-- Claim C3 witness: the amended behaviour at a concrete run. -/
theorem c3_refresh_then_full_fallbacks_witness :
    ∃ tail, (cognitoLogin ⟨2026, 1, 1, 0, 0, 0, 0, none⟩
        [none, some ⟨"ID2", "AC2", 3600, .vStr "RT2"⟩]
        ⟨[("refresh_token", .vStr "R")], .memory ⟨[], 0⟩⟩).2.2
          = ⟨.refresh, .vStr "R"⟩ :: tail ∧
      ∀ att ∈ tail, att.path = .full ∧ att.refreshTokenAtCall = .vNone :=
  c3_refresh_then_full_fallbacks ⟨2026, 1, 1, 0, 0, 0, 0, none⟩ none
    [some ⟨"ID2", "AC2", 3600, .vStr "RT2"⟩]
    ⟨[("refresh_token", .vStr "R")], .memory ⟨[], 0⟩⟩ "R" rfl (by decide)

/-- Claim C4 counterexample.  After two consecutive failures the code does not
stop with "no token": a third attempt runs and its token is returned,
refuting "retries at most once ... returns with no token produced". -/
theorem c4_counterexample :
    ((cognitoLogin ⟨2026, 1, 1, 0, 0, 0, 0, none⟩
        [none, none, some ⟨"ID3", "AC3", 3600, .vStr "RT3"⟩]
        ⟨[("refresh_token", .vStr "R")], .memory ⟨[], 0⟩⟩).2.1 = some "ID3")
  ∧ ((cognitoLogin ⟨2026, 1, 1, 0, 0, 0, 0, none⟩
        [none, none, some ⟨"ID3", "AC3", 3600, .vStr "RT3"⟩]
        ⟨[("refresh_token", .vStr "R")], .memory ⟨[], 0⟩⟩).2.2.length = 3) := by
  constructor <;>
    simp [cognitoLogin, dictLookup, dictSet, truthy, cacheTokens, convertExpires, dictToJson,
      pyToJson, Bind.bind, Except.bind, pure, Except.pure]

/-- Claim C4 (amended).  The retry is unbounded: `n` consecutive failures give
`n` attempts and `None` only once the outcome supply (in reality the
interpreter recursion limit) is exhausted, without raising (first conjunct);
whenever some attempt eventually succeeds — even after arbitrarily many
failures — the recursion continues until that success and returns its
`IdToken`, having made one attempt per consumed outcome (second conjunct). -/
theorem c4_retry_unbounded :
    (∀ (now : PyDatetime) (n : Nat) (st : ProviderState),
        (cognitoLogin now (List.replicate n none) st).2.1 = none ∧
          (cognitoLogin now (List.replicate n none) st).2.2.length = n)
  ∧ (∀ (now : PyDatetime) (n : Nat) (st : ProviderState) (a : AuthResult)
        (rest : List (Option AuthResult)) (r0 ra : Option String),
        (dictLookup st.cognito_tokens "refresh_token").getD .vNone = rtVal r0 →
        a.RefreshToken = rtVal ra →
        (cognitoLogin now (List.replicate n none ++ some a :: rest) st).2.1 = some a.IdToken ∧
          (cognitoLogin now (List.replicate n none ++ some a :: rest) st).2.2.length = n + 1) :=
  ⟨fun now n st => cognitoLogin_allFail now n st,
   fun now n st a rest r0 ra h0 ha => cognitoLogin_failThenSuccess now n st a rest r0 ra h0 ha⟩

/-- Claim C4 witness: five straight failures produce five attempts and no
token; two failures followed by a success produce the success token on the
third attempt. -/
theorem c4_retry_unbounded_witness :
    ((cognitoLogin ⟨2026, 1, 1, 0, 0, 0, 0, none⟩ (List.replicate 5 none)
        ⟨[("refresh_token", .vStr "R")], .memory ⟨[], 0⟩⟩).2.1 = none ∧
      (cognitoLogin ⟨2026, 1, 1, 0, 0, 0, 0, none⟩ (List.replicate 5 none)
        ⟨[("refresh_token", .vStr "R")], .memory ⟨[], 0⟩⟩).2.2.length = 5)
  ∧ ((cognitoLogin ⟨2026, 1, 1, 0, 0, 0, 0, none⟩
        (List.replicate 2 none ++ some ⟨"ID3", "AC3", 3600, .vStr "RT3"⟩ :: [])
        ⟨[("refresh_token", .vStr "R")], .memory ⟨[], 0⟩⟩).2.1 = some "ID3" ∧
      (cognitoLogin ⟨2026, 1, 1, 0, 0, 0, 0, none⟩
        (List.replicate 2 none ++ some ⟨"ID3", "AC3", 3600, .vStr "RT3"⟩ :: [])
        ⟨[("refresh_token", .vStr "R")], .memory ⟨[], 0⟩⟩).2.2.length = 2 + 1) :=
  ⟨c4_retry_unbounded.1 ⟨2026, 1, 1, 0, 0, 0, 0, none⟩ 5
      ⟨[("refresh_token", .vStr "R")], .memory ⟨[], 0⟩⟩,
   c4_retry_unbounded.2 ⟨2026, 1, 1, 0, 0, 0, 0, none⟩ 2
      ⟨[("refresh_token", .vStr "R")], .memory ⟨[], 0⟩⟩
      ⟨"ID3", "AC3", 3600, .vStr "RT3"⟩ [] (some "R") (some "RT3") rfl rfl⟩

/-- Claim C5 (code_bug evidence).  First conjunct: the very string that
`cognito_login` stores for `token_expires` (a `str(datetime)` with space
separator, microseconds and offset) does not parse under the loop's
`%Y-%m-%dT%H:%M:%S` format, so the guard at providers.py:143 raises
`ValueError` and the renewal loop dies.  Second conjunct: even granting a
parseable timestamp, a token with a full hour remaining makes the guard
false, so the loop does not sleep and re-logs-in immediately — the claim
says it must sleep while more than the 60-second margin remains.  Third
conjunct: a token expired for years makes the guard true, so the loop
sleeps — the claim says it must log in immediately. -/
theorem c5_login_loop_guard :
    (loginLoopGuard
        (dtToString (dtShiftSeconds ⟨2026, 10, 12, 13, 0, 0, 123456, some 120⟩ 3600))
        ⟨2026, 10, 12, 13, 0, 0, 123456, some 120⟩
      = .error (.valueError "time data does not match format"))
  ∧ (loginLoopGuard "2026-10-12T14:00:00" ⟨2026, 10, 12, 13, 0, 0, 0, none⟩ = .ok false)
  ∧ (loginLoopGuard "2020-01-01T00:00:00" ⟨2026, 10, 12, 13, 0, 0, 0, none⟩ = .ok true) := by
  refine ⟨?_, ?_, ?_⟩ <;> rfl

/-- Claim C6 counterexample.  A non-empty explicit mapping holding only the
extra key `region` has all five required fields absent, yet
`get_cognito_config` raises (naming all five) instead of returning the
empty configuration as the claim demands. -/
theorem c6_counterexample :
    getCognitoConfig [("region", .vStr "us-east-1")] =
      .error (.exception ["app_id", "password", "username", "user_pool_id",
        "identity_pool_id"]) := rfl

/-- Claim C6 (amended).  For the environment source the claim is exact: a
some-but-not-all subset of the five variables raises an error naming exactly
the missing ones, and a fully absent set returns the empty configuration.
For the explicit mapping, the error fires whenever the mapping is non-empty
and any required key is missing (naming exactly the missing keys, even when
all five are absent but extra keys are present); a complete mapping is
returned unchanged, and the empty configuration is returned only for an
empty mapping. -/
theorem c6_config_validation :
    (∀ env : EnvMap,
        (requiredEnvVars.filter (fun k => (envLookup env k).isNone) ≠ [] →
          (requiredEnvVars.filter (fun k => (envLookup env k).isNone)).length
              ≠ requiredEnvVars.length →
          getCognitoConfigFromEnv env =
            .error (.exception (requiredEnvVars.filter (fun k => (envLookup env k).isNone))))
      ∧ ((requiredEnvVars.filter (fun k => (envLookup env k).isNone)).length
            = requiredEnvVars.length →
          getCognitoConfigFromEnv env = .ok []))
  ∧ (∀ config : PyDict,
        (requiredConfigKeys.filter (fun k => (dictLookup config k).isNone) ≠ [] →
          config ≠ [] →
          getCognitoConfig config =
            .error (.exception (requiredConfigKeys.filter
              (fun k => (dictLookup config k).isNone))))
      ∧ (requiredConfigKeys.filter (fun k => (dictLookup config k).isNone) = [] →
          getCognitoConfig config = .ok config)
      ∧ (config = [] → getCognitoConfig config = .ok [])) := by
  constructor
  · intro env
    constructor
    · intro h1 h2
      simp [getCognitoConfigFromEnv, h1, h2]
    · intro h
      have h1 : requiredEnvVars.filter (fun k => (envLookup env k).isNone) ≠ [] := by
        intro hc
        rw [hc] at h
        simp [requiredEnvVars] at h
      simp [getCognitoConfigFromEnv, h, h1]
  · intro config
    refine ⟨?_, ?_, ?_⟩
    · intro h1 h2
      simp [getCognitoConfig, h1, h2, List.isEmpty_eq_false_iff_exists_mem]
    · intro h
      simp [getCognitoConfig, h]
    · intro h
      subst h
      simp [getCognitoConfig, requiredConfigKeys, dictLookup]

/-- Claim C6 witness: the spec's own example (3 of 5 environment variables set
raises naming exactly the 2 missing ones) and a one-key explicit mapping
raising with exactly the 4 missing keys. -/
theorem c6_config_validation_witness :
    (getCognitoConfigFromEnv
        [("COGNITO_APP_ID", "a"), ("COGNITO_USERNAME", "u"), ("COGNITO_USER_POOL_ID", "p")]
      = .error (.exception ["COGNITO_PASSWORD", "COGNITO_IDENTITY_POOL_ID"]))
  ∧ (getCognitoConfig [("app_id", .vStr "a")]
      = .error (.exception ["password", "username", "user_pool_id", "identity_pool_id"])) :=
  ⟨(c6_config_validation.1
      [("COGNITO_APP_ID", "a"), ("COGNITO_USERNAME", "u"), ("COGNITO_USER_POOL_ID", "p")]).1
      (by decide) (by decide),
   (c6_config_validation.2 [("app_id", .vStr "a")]).1 (by decide) (by simp)⟩

/-- Claim C7 counterexample.  A missing cache file is not turned into an empty
mapping: the `open` call raises `FileNotFoundError`, which the
`json.JSONDecodeError` handler at providers.py:101 does not catch. -/
theorem c7_counterexample :
    tokensProp (.file none) = .error .fileNotFoundError := rfl

/-- Claim C7 (amended).  The `tokens` property returns the empty mapping for an
empty in-memory buffer, for an empty existing file, and in general for any
content whose parse fails with CPython's `Expecting value` error; a missing
file raises `FileNotFoundError`; any other decode failure of existing
content propagates as `JSONDecodeError`. -/
theorem c7_tokens_error_policy :
    (tokensProp (.memory ⟨[], 0⟩) = .ok (.obj [], .memory ⟨[], 0⟩))
  ∧ (tokensProp (.file (some "")) = .ok (.obj [], .file (some "")))
  ∧ (∀ s, jsonLoads s = .error "Expecting value" →
        tokensProp (.file (some s)) = .ok (.obj [], .file (some s)))
  ∧ (∀ s msg, jsonLoads s = .error msg → msg ≠ "Expecting value" →
        tokensProp (.file (some s)) = .error (.jsonDecodeError msg)) := by
  refine ⟨rfl, rfl, ?_, ?_⟩
  · intro s h
    simp [tokensProp, h]
  · intro s msg h hne
    simp [tokensProp, h, hne]

/-- Claim C7 witness: the file content `"\x7b"` (a lone opening brace) fails
with a different message and is propagated as a decode error. -/
theorem c7_tokens_error_policy_witness :
    tokensProp (.file (some "\x7b"))
      = .error (.jsonDecodeError "Expecting property name enclosed in double quotes") :=
  (c7_tokens_error_policy.2.2.2) "\x7b"
    "Expecting property name enclosed in double quotes" rfl (by decide)

/-- Claim C8 (confirmed).  For every token triple (arbitrary id/access token
strings, a `datetime` expiry and an optional refresh token) and on both
backends (any in-memory buffer and any file state), `cache_tokens` followed
by the `tokens` property reproduces the same logical triple, with the expiry
equal to its normalized string form. -/
theorem c8_cache_roundtrip (i a : String) (d : PyDatetime) (rt : Option String)
    (b : CacheBackend) :
    ∃ b1 b2, (cacheTokens (tokenDict i a (.vDatetime d) (rtVal rt)) b).2 = .ok b1
      ∧ tokensProp b1 = .ok (.obj [("id_token", .str i), ("access_token", .str a),
          ("token_expires", .str (dtToString d)), ("refresh_token", rtJson rt)], b2) := by
  have hflat : ∀ p ∈ [("id_token", JsonVal.str i), ("access_token", JsonVal.str a),
      ("token_expires", JsonVal.str (dtToString d)), ("refresh_token", rtJson rt)],
      flatJson p.2 := by
    intro p hp
    rcases rt with _ | rs <;> simp [rtJson] at hp <;>
      rcases hp with h | h | h | h <;> simp [h, flatJson]
  have hload := jsonLoads_dumpObj _ hflat
  cases b with
  | memory buf =>
      refine ⟨.memory ⟨dumpVal (.obj [("id_token", .str i), ("access_token", .str a),
          ("token_expires", .str (dtToString d)), ("refresh_token", rtJson rt)]), 0⟩,
        .memory ⟨dumpVal (.obj [("id_token", .str i), ("access_token", .str a),
          ("token_expires", .str (dtToString d)), ("refresh_token", rtJson rt)]),
          (dumpVal (.obj [("id_token", .str i), ("access_token", .str a),
          ("token_expires", .str (dtToString d)), ("refresh_token", rtJson rt)])).length⟩,
        ?_, ?_⟩
      · cases rt <;>
          simp [cacheTokens, tokenDict, convertExpires, dictLookup, dictSet, dictToJson,
            pyToJson, rtVal, rtJson, Bind.bind, Except.bind, pure, Except.pure]
      · show tokensProp _ = _
        simp only [tokensProp, MemBuf.read, List.drop_zero]
        rw [hload]
  | file contents =>
      refine ⟨.file (some (String.mk (dumpVal (.obj [("id_token", .str i),
          ("access_token", .str a), ("token_expires", .str (dtToString d)),
          ("refresh_token", rtJson rt)])))),
        .file (some (String.mk (dumpVal (.obj [("id_token", .str i),
          ("access_token", .str a), ("token_expires", .str (dtToString d)),
          ("refresh_token", rtJson rt)])))), ?_, ?_⟩
      · cases rt <;>
          simp [cacheTokens, tokenDict, convertExpires, dictLookup, dictSet, dictToJson,
            pyToJson, rtVal, rtJson, Bind.bind, Except.bind, pure, Except.pure]
      · show tokensProp _ = _
        simp only [tokensProp]
        rw [hload]

/-- Claim C9 (confirmed).  `cache_tokens` mutates the dict passed to it: a
`datetime`-valued `token_expires` is replaced in place by its string form
(first conjunct); consequently, after every successful `cognito_login` the
provider's live `cognito_tokens["token_expires"]` — the same mapping that
was passed to `cache_tokens` — holds a string (second conjunct). -/
theorem c9_cache_mutation :
    (∀ (tokens : PyDict) (b : CacheBackend) (d : PyDatetime),
        dictLookup tokens "token_expires" = some (.vDatetime d) →
        (cacheTokens tokens b).1 = dictSet tokens "token_expires" (.vStr (dtToString d)))
  ∧ (∀ (now : PyDatetime) (outs : List (Option AuthResult)) (st : ProviderState)
        (tok : String),
        (cognitoLogin now outs st).2.1 = some tok →
        ∃ s, dictLookup (cognitoLogin now outs st).1.cognito_tokens "token_expires"
          = some (.vStr s)) := by
  constructor
  · intro tokens b d h
    rw [cacheTokens_fst]
    simp [convertExpires, h]
  · intro now outs st tok h
    exact cognitoLogin_success_expStr now outs st tok h

/-- Claim C9 witness: a concrete dict is mutated to the string form, and a
concrete successful login leaves a string-typed `token_expires`. -/
theorem c9_cache_mutation_witness :
    ((cacheTokens [("token_expires", .vDatetime ⟨2026, 1, 1, 0, 0, 0, 0, some 0⟩)]
        (.memory ⟨[], 0⟩)).1
      = dictSet [("token_expires", .vDatetime ⟨2026, 1, 1, 0, 0, 0, 0, some 0⟩)]
          "token_expires" (.vStr (dtToString ⟨2026, 1, 1, 0, 0, 0, 0, some 0⟩)))
  ∧ (∃ s, dictLookup (cognitoLogin ⟨2026, 1, 1, 0, 0, 0, 0, some 0⟩
        [some ⟨"ID", "AC", 3600, .vStr "RT"⟩]
        ⟨[("refresh_token", .vNone)], .memory ⟨[], 0⟩⟩).1.cognito_tokens "token_expires"
      = some (.vStr s)) :=
  ⟨c9_cache_mutation.1 [("token_expires", .vDatetime ⟨2026, 1, 1, 0, 0, 0, 0, some 0⟩)]
      (.memory ⟨[], 0⟩) ⟨2026, 1, 1, 0, 0, 0, 0, some 0⟩ rfl,
   c9_cache_mutation.2 ⟨2026, 1, 1, 0, 0, 0, 0, some 0⟩
      [some ⟨"ID", "AC", 3600, .vStr "RT"⟩]
      ⟨[("refresh_token", .vNone)], .memory ⟨[], 0⟩⟩ "ID" rfl⟩

/-- Claim C10 (confirmed).  On the in-memory backend, after a `cache_tokens`
store the first `tokens` read returns the stored triple and leaves the
buffer position at the end, so a second consecutive read sees an empty
string and returns the empty mapping: the read is not idempotent. -/
theorem c10_memory_read_consumes (i a : String) (d : PyDatetime) (rt : Option String)
    (buf : MemBuf) :
    ∃ data1, (cacheTokens (tokenDict i a (.vDatetime d) (rtVal rt)) (.memory buf)).2
        = .ok (.memory ⟨data1, 0⟩)
      ∧ tokensProp (.memory ⟨data1, 0⟩) = .ok (.obj [("id_token", .str i),
          ("access_token", .str a), ("token_expires", .str (dtToString d)),
          ("refresh_token", rtJson rt)],
          .memory ⟨data1, data1.length⟩)
      ∧ tokensProp (.memory ⟨data1, data1.length⟩)
          = .ok (.obj [], .memory ⟨data1, data1.length⟩) := by
  have hflat : ∀ p ∈ [("id_token", JsonVal.str i), ("access_token", JsonVal.str a),
      ("token_expires", JsonVal.str (dtToString d)), ("refresh_token", rtJson rt)],
      flatJson p.2 := by
    intro p hp
    rcases rt with _ | rs <;> simp [rtJson] at hp <;>
      rcases hp with h | h | h | h <;> simp [h, flatJson]
  have hload := jsonLoads_dumpObj _ hflat
  refine ⟨dumpVal (.obj [("id_token", .str i), ("access_token", .str a),
      ("token_expires", .str (dtToString d)), ("refresh_token", rtJson rt)]), ?_, ?_, ?_⟩
  · cases rt <;>
      simp [cacheTokens, tokenDict, convertExpires, dictLookup, dictSet, dictToJson,
        pyToJson, rtVal, rtJson, Bind.bind, Except.bind, pure, Except.pure]
  · show tokensProp _ = _
    simp only [tokensProp, MemBuf.read, List.drop_zero]
    rw [hload]
  · show tokensProp _ = _
    simp only [tokensProp, MemBuf.read, List.drop_length]
    rfl

end CognitoAssumeRole
